import Mathlib

set_option maxRecDepth 100000
set_option maxHeartbeats 0

/-!
Verification of the SudokuSolver repository (src/main.rs).

The grid data model and the backtracking solver are embedded shallowly:
`u8`/`u32`/`usize` values become `Nat`, the `data` vector becomes a
`List Nat`, and the one fallible operation (`SudokuGrid::set`, which
indexes the vector directly and would panic out of bounds) returns an
`Option`. The `while iteration_count < max_iterations` loop of `solve`
becomes structural recursion on the remaining budget
`max_iterations - iteration_count`.
-/

namespace Sudoku

/-- The `SudokuGrid` struct (main.rs 17-20): a flat vector of cell values
(documented size 81, not enforced by the struct itself). -/
structure SudokuGrid where
  data : List Nat
  deriving DecidableEq

/-- `SudokuGrid::get` (main.rs 27-32): the value at `(x, y)`, read at flat
index `y * 9 + x`, defaulting to 0 when that index is outside the vector. -/
def SudokuGrid.get (g : SudokuGrid) (x y : Nat) : Nat :=
  match g.data.get? (y * 9 + x) with
  | some num => num
  | none => 0

/-- `SudokuGrid::set` (main.rs 23-25): writes `value` at flat index
`y * 9 + x`; `none` models the Rust panic on an out-of-bounds index. -/
def SudokuGrid.set (g : SudokuGrid) (x y value : Nat) : Option SudokuGrid :=
  if y * 9 + x < g.data.length then some ⟨g.data.set (y * 9 + x) value⟩ else none

/-- `SudokuGrid::row` (main.rs 35-44): the nine values `get(x, y)` for
`x` in `0..9`. -/
def SudokuGrid.row (g : SudokuGrid) (y : Nat) : List Nat :=
  (List.range 9).map fun x => g.get x y

/-- `SudokuGrid::column` (main.rs 47-56): the nine values `get(x, y)` for
`y` in `0..9`. -/
def SudokuGrid.column (g : SudokuGrid) (x : Nat) : List Nat :=
  (List.range 9).map fun y => g.get x y

/-- `SudokuGrid::group` (main.rs 59-73): the nine values of the 3x3 block
containing `(x, y)`, whose top-left corner is `(x - x % 3, y - y % 3)`,
in row-major order within the block. -/
def SudokuGrid.group (g : SudokuGrid) (x y : Nat) : List Nat :=
  let group_start_x := x - x % 3
  let group_start_y := y - y % 3
  (List.range 3).flatMap fun y_offset =>
    (List.range 3).map fun x_offset =>
      g.get (group_start_x + x_offset) (group_start_y + y_offset)

/-- `SudokuGrid::check` (main.rs 80-90), the spec's `can_place`: true iff
`value` is absent from the row, the column, and the 3x3 group of `(x, y)`. -/
def SudokuGrid.check (g : SudokuGrid) (x y value : Nat) : Bool :=
  if (g.row y).contains value then false
  else if (g.column x).contains value then false
  else if (g.group x y).contains value then false
  else true

/-- `SudokuGrid::is_empty` (main.rs 118-120): no cell holds a positive value. -/
def SudokuGrid.is_empty (g : SudokuGrid) : Bool :=
  !(g.data.any fun v => decide (0 < v))

/-- `SudokuGrid::check_grid` (main.rs 93-115), the spec's `is_fully_valid`:
false on the empty grid; otherwise scans `y` in `0..8` and `x` in `0..8`
(the literal ranges of the Rust `for` loops) and fails when the nonzero
value at `(x, y)` occurs more than once in its row, column, or group. -/
def SudokuGrid.check_grid (g : SudokuGrid) : Bool :=
  if g.is_empty then false
  else
    (List.range 8).all fun y =>
      (List.range 8).all fun x =>
        let value := g.get x y
        if value != 0 then
          if 1 < (g.row y).count value then false
          else if 1 < (g.column x).count value then false
          else if 1 < (g.group x y).count value then false
          else true
        else true

/-- `SudokuGrid::empty` (main.rs 123-127). -/
def SudokuGrid.empty : SudokuGrid :=
  ⟨List.replicate 81 0⟩

/-- `SudokuGrid::from_data` (main.rs 182-186): wraps the given data with no
length check. -/
def SudokuGrid.from_data (data : List Nat) : SudokuGrid :=
  ⟨data⟩

/-- `SudokuGrid::example_grid` (main.rs 163-179). -/
def SudokuGrid.example_grid : SudokuGrid :=
  ⟨[5, 3, 0,  0, 7, 0,  0, 0, 0,
    6, 0, 0,  1, 9, 5,  0, 0, 0,
    0, 9, 8,  0, 0, 0,  0, 6, 0,
    8, 0, 0,  0, 6, 0,  0, 0, 3,
    4, 0, 0,  8, 0, 3,  0, 0, 1,
    7, 0, 0,  0, 2, 0,  0, 0, 6,
    0, 6, 0,  0, 0, 0,  2, 8, 0,
    0, 0, 0,  4, 1, 9,  0, 0, 5,
    0, 0, 0,  0, 8, 0,  0, 7, 9]⟩

/-- The length guard of `parse_arguments` (main.rs 436-445): the comma-split
digit sequence is rejected unless it has exactly 81 entries; only then is
`from_data` called. -/
def grid_from_digits (digits : List Nat) : Option SudokuGrid :=
  if digits.length != 81 then none
  else some (SudokuGrid.from_data digits)

/-- The `SudokuSolvingError` enum (main.rs 229-233). -/
inductive SudokuSolvingError where
  | InvalidGrid
  | Unsolvable
  | IterationCountOverflow
  deriving DecidableEq

/-- The result type of `solve`: Rust `Result<SudokuGrid, SudokuSolvingError>`. -/
inductive SolveResult where
  | ok (grid : SudokuGrid)
  | err (e : SudokuSolvingError)
  deriving DecidableEq

/-- The mutable locals of `solve` (main.rs 253-260): the working clone
`solved_grid`, the cursor `(x, y)` and the direction flag. -/
structure SolveState where
  solved_grid : SudokuGrid
  x : Nat
  y : Nat
  iterating_forward : Bool
  deriving DecidableEq

/-- The common forward block of `solve` (main.rs 291-302, 336-345, 350-360):
`none` models the `break` past the last cell, otherwise the next cursor. -/
def goForward (x y : Nat) : Option (Nat × Nat) :=
  if 8 ≤ x then
    if 8 ≤ y then none
    else some (0, y + 1)
  else some (x + 1, y)

/-- The common backward block of `solve` (main.rs 280-289, 321-331, 362-372):
`none` models the `Unsolvable` early return at `(0, 0)`, otherwise the
previous cursor. -/
def goBack (x y : Nat) : Option (Nat × Nat) :=
  if x == 0 then
    if 0 < y then some (8, y - 1)
    else none
  else some (x - 1, y)

/-- Outcome of one iteration of the `while` loop of `solve`. -/
inductive StepResult where
  | next (st : SolveState)
  | done (grid : SudokuGrid)
  | unsolvable
  deriving DecidableEq

/-- One full iteration of the `while` loop of `solve` (main.rs 262-377).
`grid` is the original input (consulted for preset cells), `st` the mutable
state. The outer `none` models a panic of `SudokuGrid::set`. The candidate
loops `for value in 1..=9` and `for value in current_value..=9` are embedded
as `List.find?` over the corresponding ranges. -/
def step (grid : SudokuGrid) (st : SolveState) : Option StepResult :=
  let sg := st.solved_grid
  let x := st.x
  let y := st.y
  if grid.get x y == 0 then
    if st.iterating_forward then
      match (List.range' 1 9).find? (fun value => sg.check x y value) with
      | some value =>
        match sg.set x y value with
        | none => none
        | some sg' =>
          match goForward x y with
          | none => some (.done sg')
          | some (x', y') => some (.next ⟨sg', x', y', true⟩)
      | none =>
        match goBack x y with
        | none => some .unsolvable
        | some (x', y') => some (.next ⟨sg, x', y', false⟩)
    else
      let current_value := sg.get x y
      match (List.range' current_value (10 - current_value)).find?
          (fun value => sg.check x y value) with
      | some value =>
        match sg.set x y value with
        | none => none
        | some sg' =>
          match goForward x y with
          | none => some (.done sg')
          | some (x', y') => some (.next ⟨sg', x', y', true⟩)
      | none =>
        match sg.set x y 0 with
        | none => none
        | some sg' =>
          match goBack x y with
          | none => some .unsolvable
          | some (x', y') => some (.next ⟨sg', x', y', false⟩)
  else
    if st.iterating_forward then
      match goForward x y with
      | none => some (.done sg)
      | some (x', y') => some (.next ⟨sg, x', y', true⟩)
    else
      match goBack x y with
      | none => some .unsolvable
      | some (x', y') => some (.next ⟨sg, x', y', false⟩)

/-- The `while iteration_count < max_iterations` loop of `solve`
(main.rs 262-382), recursing on the remaining budget
`max_iterations - iteration_count`. Exhausted budget is exactly the
post-loop `iteration_count == max_iterations` check yielding
`IterationCountOverflow`; a `break` yields `Ok(solved_grid)`. -/
def loopAux (grid : SudokuGrid) : SolveState → Nat → Option SolveResult
  | _, 0 => some (.err .IterationCountOverflow)
  | st, fuel + 1 =>
    match step grid st with
    | none => none
    | some (.done g) => some (.ok g)
    | some .unsolvable => some (.err .Unsolvable)
    | some (.next st') => loopAux grid st' fuel

/-- `solve` (main.rs 248-385): validity precheck, then the bounded
backtracking loop starting from a clone of the input at cursor `(0, 0)`,
iterating forward. `none` models a panic. -/
def solve (grid : SudokuGrid) (max_iterations : Nat) : Option SolveResult :=
  if !grid.check_grid then some (.err .InvalidGrid)
  else loopAux grid ⟨grid, 0, 0, true⟩ max_iterations

/-- Runs `n` full loop iterations from state `st`; `some st'` when none of
them terminated the search (by panic, completion, or `Unsolvable`). -/
def runSteps (grid : SudokuGrid) : SolveState → Nat → Option SolveState
  | st, 0 => some st
  | st, n + 1 =>
    match step grid st with
    | some (.next st') => runSteps grid st' n
    | _ => none

/-- The unique solution of the example grid (also the expected output of
`solve` on it). -/
def solvedExample : SudokuGrid :=
  ⟨[5, 3, 4,  6, 7, 8,  9, 1, 2,
    6, 7, 2,  1, 9, 5,  3, 4, 8,
    1, 9, 8,  3, 4, 2,  5, 6, 7,
    8, 5, 9,  7, 6, 1,  4, 2, 3,
    4, 2, 6,  8, 5, 3,  7, 9, 1,
    7, 1, 3,  9, 2, 4,  8, 5, 6,
    9, 6, 1,  5, 3, 7,  2, 8, 4,
    2, 8, 7,  4, 1, 9,  6, 3, 5,
    3, 4, 5,  2, 8, 6,  1, 7, 9]⟩

/-- A grid whose only rule violation is the digit 5 stored at both (8, 0)
and (8, 1): a duplicate confined to column 8. -/
def dupLastColGrid : SudokuGrid :=
  ⟨[0, 0, 0,  0, 0, 0,  0, 0, 5,
    0, 0, 0,  0, 0, 0,  0, 0, 5,
    0, 0, 0,  0, 0, 0,  0, 0, 0,
    0, 0, 0,  0, 0, 0,  0, 0, 0,
    0, 0, 0,  0, 0, 0,  0, 0, 0,
    0, 0, 0,  0, 0, 0,  0, 0, 0,
    0, 0, 0,  0, 0, 0,  0, 0, 0,
    0, 0, 0,  0, 0, 0,  0, 0, 0,
    0, 0, 0,  0, 0, 0,  0, 0, 0]⟩

/-- `solvedExample` with the cell (8, 8) changed from 9 to 5: a fully preset
grid whose column 8 (and bottom-right group) contains the digit 5 twice, at
(8, 7) and (8, 8) only. -/
def hiddenDupGrid : SudokuGrid :=
  ⟨[5, 3, 4,  6, 7, 8,  9, 1, 2,
    6, 7, 2,  1, 9, 5,  3, 4, 8,
    1, 9, 8,  3, 4, 2,  5, 6, 7,
    8, 5, 9,  7, 6, 1,  4, 2, 3,
    4, 2, 6,  8, 5, 3,  7, 9, 1,
    7, 1, 3,  9, 2, 4,  8, 5, 6,
    9, 6, 1,  5, 3, 7,  2, 8, 4,
    2, 8, 7,  4, 1, 9,  6, 3, 5,
    3, 4, 5,  2, 8, 6,  1, 7, 5]⟩

/-- A valid grid on which the very first solver step already fails: cell
(0, 0) is free but its row holds 1..8 and its column holds 9, so the first
iteration backtracks from (0, 0) and returns `Unsolvable`. -/
def stuckGrid : SudokuGrid :=
  ⟨[0, 1, 2,  3, 4, 5,  6, 7, 8,
    9, 0, 0,  0, 0, 0,  0, 0, 0,
    0, 0, 0,  0, 0, 0,  0, 0, 0,
    0, 0, 0,  0, 0, 0,  0, 0, 0,
    0, 0, 0,  0, 0, 0,  0, 0, 0,
    0, 0, 0,  0, 0, 0,  0, 0, 0,
    0, 0, 0,  0, 0, 0,  0, 0, 0,
    0, 0, 0,  0, 0, 0,  0, 0, 0,
    0, 0, 0,  0, 0, 0,  0, 0, 0]⟩

/-- A grid holding 7 at flat index 9, i.e. at cell (0, 1). -/
def aliasGrid : SudokuGrid :=
  ⟨[0, 0, 0,  0, 0, 0,  0, 0, 0,
    7, 0, 0,  0, 0, 0,  0, 0, 0,
    0, 0, 0,  0, 0, 0,  0, 0, 0,
    0, 0, 0,  0, 0, 0,  0, 0, 0,
    0, 0, 0,  0, 0, 0,  0, 0, 0,
    0, 0, 0,  0, 0, 0,  0, 0, 0,
    0, 0, 0,  0, 0, 0,  0, 0, 0,
    0, 0, 0,  0, 0, 0,  0, 0, 0,
    0, 0, 0,  0, 0, 0,  0, 0, 0]⟩

/-!
A mirror of the solver whose 81-cell grid is packed into the base-16 digits
of a single `Nat` (digit `i` = flat cell index `i`). All grid reads and
writes become GMP-accelerated `Nat` arithmetic, which the kernel can
evaluate several orders of magnitude faster than `List` traversals; the
development below proves the mirror step-for-step equal to the faithful
embedding (under `encode`), so long runs of the solver can be certified by
computing with the mirror.
-/

/-- Base-16 packing of a cell list into one natural number. -/
def encode : List Nat → Nat
  | [] => 0
  | v :: rest => v + 16 * encode rest

/-- Invariant of every cell list a solver run touches: 81 cells, each a
single base-16 digit. -/
def Nibbles (l : List Nat) : Prop :=
  l.length = 81 ∧ ∀ v ∈ l, v < 16

/-- Mirror of `SudokuGrid.get` on a packed grid. -/
def fget (d x y : Nat) : Nat :=
  d / 16 ^ (y * 9 + x) % 16

/-- Mirror of `SudokuGrid.set` on a packed grid (length fixed at 81). -/
def fset (d x y value : Nat) : Option Nat :=
  if y * 9 + x < 81 then
    some (d - d / 16 ^ (y * 9 + x) % 16 * 16 ^ (y * 9 + x) + value * 16 ^ (y * 9 + x))
  else none

/-- Mirror of `(SudokuGrid.row g y).contains value`, unrolled. -/
def frowHas (d y value : Nat) : Bool :=
  value == fget d 0 y || (value == fget d 1 y || (value == fget d 2 y ||
    (value == fget d 3 y || (value == fget d 4 y || (value == fget d 5 y ||
    (value == fget d 6 y || (value == fget d 7 y || value == fget d 8 y)))))))

/-- Mirror of `(SudokuGrid.column g x).contains value`, unrolled. -/
def fcolumnHas (d x value : Nat) : Bool :=
  value == fget d x 0 || (value == fget d x 1 || (value == fget d x 2 ||
    (value == fget d x 3 || (value == fget d x 4 || (value == fget d x 5 ||
    (value == fget d x 6 || (value == fget d x 7 || value == fget d x 8)))))))

/-- Mirror of `(SudokuGrid.group g x y).contains value`, unrolled. -/
def fgroupHas (d x y value : Nat) : Bool :=
  let gsx := x - x % 3
  let gsy := y - y % 3
  value == fget d gsx gsy || (value == fget d (gsx + 1) gsy ||
    (value == fget d (gsx + 2) gsy || (value == fget d gsx (gsy + 1) ||
    (value == fget d (gsx + 1) (gsy + 1) || (value == fget d (gsx + 2) (gsy + 1) ||
    (value == fget d gsx (gsy + 2) || (value == fget d (gsx + 1) (gsy + 2) ||
    value == fget d (gsx + 2) (gsy + 2))))))))

/-- Mirror of `SudokuGrid.check` on a packed grid. -/
def fcheck (d x y value : Nat) : Bool :=
  if frowHas d y value then false
  else if fcolumnHas d x value then false
  else if fgroupHas d x y value then false
  else true

/-- Mirror of `SolveState` with a packed working grid. -/
structure FastState where
  sg : Nat
  x : Nat
  y : Nat
  fwd : Bool
  deriving DecidableEq

/-- Mirror of `StepResult`. -/
inductive FastStep where
  | fnext (st : FastState)
  | fdone (d : Nat)
  | funsolvable
  deriving DecidableEq

/-- Mirror of `SolveResult`. -/
inductive FastResult where
  | fok (d : Nat)
  | ferr (e : SudokuSolvingError)
  deriving DecidableEq

/-- Mirror of `step` on a packed grid. -/
def fstep (gd : Nat) (st : FastState) : Option FastStep :=
  let sg := st.sg
  let x := st.x
  let y := st.y
  if fget gd x y == 0 then
    if st.fwd then
      match (List.range' 1 9).find? (fun value => fcheck sg x y value) with
      | some value =>
        match fset sg x y value with
        | none => none
        | some sg' =>
          match goForward x y with
          | none => some (.fdone sg')
          | some (x', y') => some (.fnext ⟨sg', x', y', true⟩)
      | none =>
        match goBack x y with
        | none => some .funsolvable
        | some (x', y') => some (.fnext ⟨sg, x', y', false⟩)
    else
      let current_value := fget sg x y
      match (List.range' current_value (10 - current_value)).find?
          (fun value => fcheck sg x y value) with
      | some value =>
        match fset sg x y value with
        | none => none
        | some sg' =>
          match goForward x y with
          | none => some (.fdone sg')
          | some (x', y') => some (.fnext ⟨sg', x', y', true⟩)
      | none =>
        match fset sg x y 0 with
        | none => none
        | some sg' =>
          match goBack x y with
          | none => some .funsolvable
          | some (x', y') => some (.fnext ⟨sg', x', y', false⟩)
  else
    if st.fwd then
      match goForward x y with
      | none => some (.fdone sg)
      | some (x', y') => some (.fnext ⟨sg, x', y', true⟩)
    else
      match goBack x y with
      | none => some .funsolvable
      | some (x', y') => some (.fnext ⟨sg, x', y', false⟩)

/-- Mirror of `loopAux`. -/
def floopAux (gd : Nat) : FastState → Nat → Option FastResult
  | _, 0 => some (.ferr .IterationCountOverflow)
  | st, fuel + 1 =>
    match fstep gd st with
    | none => none
    | some (.fdone d) => some (.fok d)
    | some .funsolvable => some (.ferr .Unsolvable)
    | some (.fnext st') => floopAux gd st' fuel

/-- Mirror of `runSteps`. -/
def frunSteps (gd : Nat) : FastState → Nat → Option FastState
  | st, 0 => some st
  | st, n + 1 =>
    match fstep gd st with
    | some (.fnext st') => frunSteps gd st' n
    | _ => none

/-- The packed view of a solver state. -/
def toFast (st : SolveState) : FastState :=
  ⟨encode st.solved_grid.data, st.x, st.y, st.iterating_forward⟩

/-- The packed view of a step outcome. -/
def mapStep : StepResult → FastStep
  | .next st => .fnext (toFast st)
  | .done g => .fdone (encode g.data)
  | .unsolvable => .funsolvable

/-- The packed view of a solve outcome. -/
def mapResult : SolveResult → FastResult
  | .ok g => .fok (encode g.data)
  | .err e => .ferr e

/-- Preservation of the preset cells of the original grid `G`: every flat
index holding a nonzero value in `G` holds the same value in `sg`. -/
def Pres (G sg : SudokuGrid) : Prop :=
  ∀ i, G.data.getD i 0 ≠ 0 → sg.data.getD i 0 = G.data.getD i 0

/-- The state invariant of the solver loop: cursor within the 9x9 board and
a working grid of exactly 81 cells. -/
def StateOk (st : SolveState) : Prop :=
  st.x ≤ 8 ∧ st.y ≤ 8 ∧ st.solved_grid.data.length = 81

/-- The packed example grid. -/
def gdE : Nat := encode SudokuGrid.example_grid.data

/-- The packed initial solver state on the example grid. -/
def chk0 : FastState := ⟨gdE, 0, 0, true⟩

/-- The packed solver state after 2000 steps on the example grid. -/
def chk2000 : FastState :=
  ⟨20158638392264042118009086934671962177802906145441464661298537015568154640960553564474645647155765,
   7, 3, false⟩

/-- The packed solver state after 4000 steps on the example grid. -/
def chk4000 : FastState :=
  ⟨20158638392264042118009086934671962177802906145441464661100140323420657641067752562445144690221621,
   0, 2, false⟩

/-- The packed solver state after 6000 steps on the example grid. -/
def chk6000 : FastState :=
  ⟨20158638392264042118009086934671962177802906145441464661100150381042066405248286298459869005963829,
   5, 3, true⟩

/-- The packed solver state after 8000 steps on the example grid. -/
def chk8000 : FastState :=
  ⟨20158638392264042118009086934671962177802906145441464661122268174123866683612612062506961512916021,
   7, 3, true⟩

/-- The packed solver state after 10000 steps on the example grid. -/
def chk10000 : FastState :=
  ⟨20158638392264042118009086934671962177802906145441464661298537015568154640961143860200333367534645,
   0, 4, true⟩

/-- The packed solver state after 12000 steps on the example grid. -/
def chk12000 : FastState :=
  ⟨20158638392264042118009086934671962177802906145441464661298537327105966153051994845787379194094645,
   0, 4, true⟩

/-! Equivalence of the packed mirror with the faithful embedding. -/

theorem get_eq_getD (g : SudokuGrid) (x y : Nat) :
    g.get x y = g.data.getD (y * 9 + x) 0 := by
  rw [SudokuGrid.get, List.getD_eq_get?]
  cases g.data.get? (y * 9 + x) <;> rfl

theorem encode_lt {l : List Nat} (h : ∀ v ∈ l, v < 16) :
    encode l < 16 ^ l.length := by
  induction l with
  | nil => simp [encode]
  | cons a t ih =>
    have ha : a < 16 := h a (by simp)
    have ht := ih fun v hv => h v (by simp [hv])
    simp only [encode, List.length_cons, pow_succ]
    omega

theorem encode_getD {l : List Nat} (h : ∀ v ∈ l, v < 16) (i : Nat) :
    encode l / 16 ^ i % 16 = l.getD i 0 := by
  induction l generalizing i with
  | nil => simp [encode]
  | cons a t ih =>
    have ha : a < 16 := h a (by simp)
    have ht : ∀ v ∈ t, v < 16 := fun v hv => h v (by simp [hv])
    cases i with
    | zero =>
      simp only [encode, pow_zero, Nat.div_one, List.getD_cons_zero]
      rw [Nat.add_mul_mod_self_left]
      exact Nat.mod_eq_of_lt ha
    | succ i =>
      have hdiv : (a + 16 * encode t) / 16 ^ (i + 1) = encode t / 16 ^ i := by
        rw [pow_succ, mul_comm (16 ^ i) 16, ← Nat.div_div_eq_div_mul,
          Nat.add_mul_div_left _ _ (by norm_num : (0:Nat) < 16),
          Nat.div_eq_of_lt ha, Nat.zero_add]
      simp only [encode, List.getD_cons_succ, hdiv]
      exact ih ht i

theorem encode_set {l : List Nat} (h : ∀ v ∈ l, v < 16) {i : Nat}
    (hi : i < l.length) (v : Nat) :
    encode (l.set i v) =
      encode l - encode l / 16 ^ i % 16 * 16 ^ i + v * 16 ^ i := by
  induction l generalizing i with
  | nil => simp at hi
  | cons a t ih =>
    have ha : a < 16 := h a (by simp)
    have ht : ∀ w ∈ t, w < 16 := fun w hw => h w (by simp [hw])
    cases i with
    | zero =>
      simp only [List.set, encode, pow_zero, Nat.div_one, mul_one]
      rw [Nat.add_mul_mod_self_left, Nat.mod_eq_of_lt ha]
      omega
    | succ i =>
      have hit : i < t.length := by simpa using hi
      have hdig : (a + 16 * encode t) / 16 ^ (i + 1) % 16 = encode t / 16 ^ i % 16 := by
        rw [pow_succ, mul_comm (16 ^ i) 16, ← Nat.div_div_eq_div_mul,
          Nat.add_mul_div_left _ _ (by norm_num : (0:Nat) < 16),
          Nat.div_eq_of_lt ha, Nat.zero_add]
      have hle : encode t / 16 ^ i % 16 * 16 ^ i ≤ encode t := by
        calc encode t / 16 ^ i % 16 * 16 ^ i
            ≤ encode t / 16 ^ i * 16 ^ i := by
              exact Nat.mul_le_mul_right _ (Nat.mod_le _ _)
          _ ≤ encode t := Nat.div_mul_le_self _ _
      simp only [List.set, encode, ih ht hit, hdig]
      rw [pow_succ]
      simp only [← mul_assoc]
      generalize encode t / 16 ^ i % 16 * 16 ^ i = q at hle ⊢
      generalize hvp : v * 16 ^ i = vp
      generalize encode t = e at hle ⊢
      omega

theorem encode_inj {l1 l2 : List Nat} (h1 : ∀ v ∈ l1, v < 16)
    (h2 : ∀ v ∈ l2, v < 16) (hlen : l1.length = l2.length)
    (he : encode l1 = encode l2) : l1 = l2 := by
  induction l1 generalizing l2 with
  | nil => cases l2 with
    | nil => rfl
    | cons b t2 => simp at hlen
  | cons a t1 ih =>
    cases l2 with
    | nil => simp at hlen
    | cons b t2 =>
      have ha : a < 16 := h1 a (by simp)
      have hb : b < 16 := h2 b (by simp)
      simp only [encode] at he
      have hab : a = b ∧ encode t1 = encode t2 := by omega
      have := ih (fun v hv => h1 v (by simp [hv])) (fun v hv => h2 v (by simp [hv]))
        (by simpa using hlen) hab.2
      simp [hab.1, this]

theorem fget_encode {l : List Nat} (h : ∀ v ∈ l, v < 16) (x y : Nat) :
    fget (encode l) x y = SudokuGrid.get ⟨l⟩ x y := by
  rw [fget, encode_getD h, get_eq_getD]

theorem range_nine : List.range 9 = [0, 1, 2, 3, 4, 5, 6, 7, 8] := by decide

theorem range_three : List.range 3 = [0, 1, 2] := by decide

theorem frowHas_encode {l : List Nat} (h : ∀ v ∈ l, v < 16) (y value : Nat) :
    frowHas (encode l) y value = (SudokuGrid.row ⟨l⟩ y).contains value := by
  simp only [frowHas, SudokuGrid.row, range_nine, List.map_cons, List.map_nil,
    List.contains_cons, fget_encode h, beq_eq_decide, List.flatMap_cons, List.flatMap_nil,
    List.cons_append, List.nil_append, Nat.add_zero, List.contains_nil, Bool.or_false]

theorem fcolumnHas_encode {l : List Nat} (h : ∀ v ∈ l, v < 16) (x value : Nat) :
    fcolumnHas (encode l) x value = (SudokuGrid.column ⟨l⟩ x).contains value := by
  simp only [fcolumnHas, SudokuGrid.column, range_nine, List.map_cons, List.map_nil,
    List.contains_cons, fget_encode h, beq_eq_decide, List.flatMap_cons, List.flatMap_nil,
    List.cons_append, List.nil_append, Nat.add_zero, List.contains_nil, Bool.or_false]

theorem fgroupHas_encode {l : List Nat} (h : ∀ v ∈ l, v < 16) (x y value : Nat) :
    fgroupHas (encode l) x y value = (SudokuGrid.group ⟨l⟩ x y).contains value := by
  simp only [fgroupHas, SudokuGrid.group, range_three, List.map_cons, List.map_nil,
    List.contains_cons, fget_encode h, beq_eq_decide, List.flatMap_cons, List.flatMap_nil,
    List.cons_append, List.nil_append, Nat.add_zero, List.contains_nil, Bool.or_false]

theorem fcheck_encode {l : List Nat} (h : ∀ v ∈ l, v < 16) (x y value : Nat) :
    fcheck (encode l) x y value = SudokuGrid.check ⟨l⟩ x y value := by
  rw [fcheck, SudokuGrid.check, frowHas_encode h, fcolumnHas_encode h, fgroupHas_encode h]

theorem fset_encode {l : List Nat} (h : ∀ v ∈ l, v < 16) (hlen : l.length = 81)
    (x y value : Nat) :
    fset (encode l) x y value =
      Option.map (fun g : SudokuGrid => encode g.data) (SudokuGrid.set ⟨l⟩ x y value) := by
  rw [fset, SudokuGrid.set]
  simp only [hlen]
  split
  · next hlt =>
    simp only [Option.map_some']
    rw [encode_set h (show y * 9 + x < l.length by omega)]
  · rfl

theorem fget_get (g : SudokuGrid) (h : ∀ v ∈ g.data, v < 16) (x y : Nat) :
    fget (encode g.data) x y = g.get x y :=
  fget_encode h x y

theorem fcheck_check (g : SudokuGrid) (h : ∀ v ∈ g.data, v < 16) (x y value : Nat) :
    fcheck (encode g.data) x y value = g.check x y value :=
  fcheck_encode h x y value

theorem fset_set (g : SudokuGrid) (h : ∀ v ∈ g.data, v < 16)
    (hlen : g.data.length = 81) (x y value : Nat) :
    fset (encode g.data) x y value =
      Option.map (fun g2 : SudokuGrid => encode g2.data) (g.set x y value) :=
  fset_encode h hlen x y value

theorem nibbles_set {l : List Nat} (h : Nibbles l) {v : Nat} (hv : v < 16) (i : Nat) :
    Nibbles (l.set i v) := by
  obtain ⟨hlen, h16⟩ := h
  refine ⟨by simp [hlen], fun w hw => ?_⟩
  rcases List.mem_or_eq_of_mem_set hw with h1 | h2
  · exact h16 w h1
  · omega

/-! Lemmas about the searched candidate ranges. -/

theorem find?_range'_bounds {p : Nat → Bool} {a n w : Nat}
    (h : (List.range' a n).find? p = some w) : a ≤ w ∧ w < a + n :=
  List.mem_range'_1.mp (List.mem_of_find?_eq_some h)

theorem find?_range'_some {p : Nat → Bool} {a n w : Nat} (hw : a ≤ w) (hwn : w < a + n)
    (hpw : p w = true) (hmin : ∀ u, a ≤ u → u < w → p u = false) :
    (List.range' a n).find? p = some w := by
  induction n generalizing a with
  | zero => omega
  | succ n ih =>
    rw [List.range'_succ, List.find?_cons]
    rcases Nat.eq_or_lt_of_le hw with heq | hlt
    · subst heq
      rw [hpw]
    · have hpa : p a = false := hmin a le_rfl hlt
      rw [hpa]
      exact ih (by omega) (by omega) fun u h1 h2 => hmin u (by omega) h2

theorem find?_range'_none {p : Nat → Bool} {a n : Nat}
    (h : ∀ u, a ≤ u → u < a + n → p u = false) : (List.range' a n).find? p = none := by
  rw [List.find?_eq_none]
  intro u hu
  have hb := List.mem_range'_1.mp hu
  simp [h u hb.1 hb.2]

/-! Structural facts about one solver step. -/

theorem step_sg {G : SudokuGrid} {st : SolveState} {r : StepResult}
    (h : step G st = some r) :
    ∃ sg2, ((∀ st2, r = StepResult.next st2 → st2.solved_grid = sg2) ∧
            (∀ g, r = StepResult.done g → g = sg2)) ∧
           (sg2 = st.solved_grid ∨
            ∃ v, v ≤ 9 ∧ G.get st.x st.y = 0 ∧
              st.solved_grid.set st.x st.y v = some sg2) := by
  obtain ⟨sg, x, y, fwd⟩ := st
  simp only [step] at h
  split at h
  · next hfree =>
    have hfree0 : G.get x y = 0 := by simpa using hfree
    split at h
    · split at h
      · next value hfind =>
        have hvb := find?_range'_bounds hfind
        split at h
        · exact absurd h (by simp)
        · next sg' hset =>
          refine ⟨sg', ?_, Or.inr ⟨value, by omega, hfree0, hset⟩⟩
          split at h <;> cases h <;> constructor <;> intro z hz <;> cases hz <;> rfl
      · refine ⟨sg, ?_, Or.inl rfl⟩
        split at h <;> cases h <;> constructor <;> intro z hz <;> cases hz <;> rfl
    · split at h
      · next value hfind =>
        have hvb := find?_range'_bounds hfind
        split at h
        · exact absurd h (by simp)
        · next sg' hset =>
          refine ⟨sg', ?_, Or.inr ⟨value, by omega, hfree0, hset⟩⟩
          split at h <;> cases h <;> constructor <;> intro z hz <;> cases hz <;> rfl
      · split at h
        · exact absurd h (by simp)
        · next sg' hset =>
          refine ⟨sg', ?_, Or.inr ⟨0, by omega, hfree0, hset⟩⟩
          split at h <;> cases h <;> constructor <;> intro z hz <;> cases hz <;> rfl
  · refine ⟨sg, ?_, Or.inl rfl⟩
    split at h <;> split at h <;> cases h <;> constructor <;> intro z hz <;> cases hz <;> rfl

theorem step_cursor {G : SudokuGrid} {st st' : SolveState}
    (h : step G st = some (.next st')) :
    goForward st.x st.y = some (st'.x, st'.y) ∨ goBack st.x st.y = some (st'.x, st'.y) := by
  obtain ⟨sg, x, y, fwd⟩ := st
  simp only [step] at h
  split at h
  · split at h
    · split at h
      · split at h
        · cases h
        · split at h
          · cases h
          · next x2 y2 hgo => cases h; exact Or.inl hgo
      · split at h
        · cases h
        · next x2 y2 hgo => cases h; exact Or.inr hgo
    · split at h
      · split at h
        · cases h
        · split at h
          · cases h
          · next x2 y2 hgo => cases h; exact Or.inl hgo
      · split at h
        · cases h
        · split at h
          · cases h
          · next x2 y2 hgo => cases h; exact Or.inr hgo
  · split at h
    · split at h
      · cases h
      · next x2 y2 hgo => cases h; exact Or.inl hgo
    · split at h
      · cases h
      · next x2 y2 hgo => cases h; exact Or.inr hgo

theorem goForward_bounds {x y x' y' : Nat} (h : goForward x y = some (x', y'))
    (hx : x ≤ 8) (hy : y ≤ 8) : x' ≤ 8 ∧ y' ≤ 8 := by
  rw [goForward] at h
  split at h
  · split at h
    · cases h
    · cases h; omega
  · cases h; omega

theorem goBack_bounds {x y x' y' : Nat} (h : goBack x y = some (x', y'))
    (hx : x ≤ 8) (hy : y ≤ 8) : x' ≤ 8 ∧ y' ≤ 8 := by
  rw [goBack] at h
  split at h
  · split at h
    · cases h; omega
    · cases h
  · cases h; omega

/-! One step of the packed mirror agrees with one step of the faithful
embedding, and the solver-state invariants are preserved. -/

theorem fstep_step (G : SudokuGrid) (hG : ∀ v ∈ G.data, v < 16) (st : SolveState)
    (h16 : ∀ v ∈ st.solved_grid.data, v < 16) (hlen : st.solved_grid.data.length = 81) :
    fstep (encode G.data) (toFast st) = Option.map mapStep (step G st) := by
  obtain ⟨sg, x, y, fwd⟩ := st
  have h16' : ∀ v ∈ sg.data, v < 16 := h16
  have hlen' : sg.data.length = 81 := hlen
  simp only [toFast, fstep, step, fget_get G hG, fget_get sg h16', fcheck_check sg h16',
    fset_set sg h16' hlen']
  split
  · split
    · cases hfind : (List.range' 1 9).find? (fun value => sg.check x y value) with
      | none =>
        dsimp only
        cases hgo : goBack x y with
        | none => rfl
        | some p => cases p with | mk x2 y2 => rfl
      | some value =>
        dsimp only
        cases hset : sg.set x y value with
        | none => rfl
        | some sg2 =>
          dsimp only
          cases hgo : goForward x y with
          | none => rfl
          | some p => cases p with | mk x2 y2 => rfl
    · cases hfind : (List.range' (sg.get x y) (10 - sg.get x y)).find?
          (fun value => sg.check x y value) with
      | none =>
        dsimp only
        cases hset : sg.set x y 0 with
        | none => rfl
        | some sg2 =>
          dsimp only
          cases hgo : goBack x y with
          | none => rfl
          | some p => cases p with | mk x2 y2 => rfl
      | some value =>
        dsimp only
        cases hset : sg.set x y value with
        | none => rfl
        | some sg2 =>
          dsimp only
          cases hgo : goForward x y with
          | none => rfl
          | some p => cases p with | mk x2 y2 => rfl
  · split
    · cases hgo : goForward x y with
      | none => rfl
      | some p => cases p with | mk x2 y2 => rfl
    · cases hgo : goBack x y with
      | none => rfl
      | some p => cases p with | mk x2 y2 => rfl

theorem step_next_nibbles {G : SudokuGrid} {st st' : SolveState}
    (h : step G st = some (.next st')) (hn : Nibbles st.solved_grid.data) :
    Nibbles st'.solved_grid.data := by
  obtain ⟨sg2, ⟨hnext, _⟩, hor⟩ := step_sg h
  have hsg : st'.solved_grid = sg2 := hnext st' rfl
  rw [hsg]
  rcases hor with heq | ⟨v, hv, _, hset⟩
  · rw [heq]; exact hn
  · rw [SudokuGrid.set] at hset
    split at hset
    · cases hset
      exact nibbles_set hn (by omega) _
    · cases hset

theorem step_done_nibbles {G : SudokuGrid} {st : SolveState} {g : SudokuGrid}
    (h : step G st = some (.done g)) (hn : Nibbles st.solved_grid.data) :
    Nibbles g.data := by
  obtain ⟨sg2, ⟨_, hdone⟩, hor⟩ := step_sg h
  have hsg : g = sg2 := hdone g rfl
  rw [hsg]
  rcases hor with heq | ⟨v, hv, _, hset⟩
  · rw [heq]; exact hn
  · rw [SudokuGrid.set] at hset
    split at hset
    · cases hset
      exact nibbles_set hn (by omega) _
    · cases hset

theorem floopAux_loopAux (G : SudokuGrid) (hG : ∀ v ∈ G.data, v < 16) :
    ∀ (fuel : Nat) (st : SolveState), Nibbles st.solved_grid.data →
      floopAux (encode G.data) (toFast st) fuel = Option.map mapResult (loopAux G st fuel) := by
  intro fuel
  induction fuel with
  | zero => intro st hn; rfl
  | succ fuel ih =>
    intro st hn
    simp only [floopAux, loopAux]
    rw [fstep_step G hG st hn.2 hn.1]
    cases hstep : step G st with
    | none => rfl
    | some r =>
      cases r with
      | done g => rfl
      | unsolvable => rfl
      | next st2 => exact ih st2 (step_next_nibbles hstep hn)

theorem loopAux_ok_nibbles (G : SudokuGrid) :
    ∀ (fuel : Nat) (st : SolveState) (S : SudokuGrid),
      loopAux G st fuel = some (.ok S) → Nibbles st.solved_grid.data → Nibbles S.data := by
  intro fuel
  induction fuel with
  | zero => intro st S h hn; cases h
  | succ fuel ih =>
    intro st S h hn
    simp only [loopAux] at h
    cases hstep : step G st with
    | none => rw [hstep] at h; cases h
    | some r =>
      cases r with
      | done g =>
        rw [hstep] at h
        have hgS : g = S := by simpa using h
        rw [← hgS]
        exact step_done_nibbles hstep hn
      | unsolvable => rw [hstep] at h; simp at h
      | next st2 =>
        rw [hstep] at h
        exact ih st2 S h (step_next_nibbles hstep hn)

theorem floopAux_chunk (gd : Nat) :
    ∀ (k m : Nat) (st st' : FastState), frunSteps gd st k = some st' →
      floopAux gd st (k + m) = floopAux gd st' m := by
  intro k
  induction k with
  | zero =>
    intro m st st' h
    cases h
    rw [Nat.zero_add]
  | succ k ih =>
    intro m st st' h
    simp only [frunSteps] at h
    cases hstep : fstep gd st with
    | none => rw [hstep] at h; cases h
    | some r =>
      cases r with
      | fnext st2 =>
        rw [hstep] at h
        have harith : (k + 1) + m = (k + m) + 1 := by omega
        rw [harith]
        simp only [floopAux]
        rw [hstep]
        exact ih m st2 st' h
      | fdone d => rw [hstep] at h; cases h
      | funsolvable => rw [hstep] at h; cases h

theorem loopAux_overflow_iff (G : SudokuGrid) :
    ∀ (fuel : Nat) (st : SolveState),
      (loopAux G st fuel = some (.err .IterationCountOverflow) ↔
        (runSteps G st fuel).isSome = true) := by
  intro fuel
  induction fuel with
  | zero => intro st; simp [loopAux, runSteps]
  | succ fuel ih =>
    intro st
    simp only [loopAux, runSteps]
    cases hstep : step G st with
    | none => simp
    | some r =>
      cases r with
      | next st2 => simpa using ih st2
      | done g => simp
      | unsolvable => simp

theorem set_pres {G sg sg' : SudokuGrid} {x y v : Nat} (hset : sg.set x y v = some sg')
    (hfree : G.get x y = 0) (hp : Pres G sg) : Pres G sg' := by
  rw [SudokuGrid.set] at hset
  split at hset
  · cases hset
    intro i hi
    rw [get_eq_getD] at hfree
    have hne : y * 9 + x ≠ i := fun he => hi (he ▸ hfree)
    show (sg.data.set (y * 9 + x) v).getD i 0 = G.data.getD i 0
    rw [List.getD_eq_get?, List.get?_set_ne _ _ hne, ← List.getD_eq_get?]
    exact hp i hi
  · cases hset

theorem step_pres {G : SudokuGrid} {st : SolveState} {r : StepResult}
    (h : step G st = some r) (hp : Pres G st.solved_grid) :
    (∀ st2, r = StepResult.next st2 → Pres G st2.solved_grid) ∧
    (∀ g, r = StepResult.done g → Pres G g) := by
  obtain ⟨sg2, ⟨hnext, hdone⟩, hor⟩ := step_sg h
  have hsg2 : Pres G sg2 := by
    rcases hor with heq | ⟨v, hv, hfree, hset⟩
    · rw [heq]; exact hp
    · exact set_pres hset hfree hp
  exact ⟨fun st2 h2 => (hnext st2 h2) ▸ hsg2, fun g h2 => (hdone g h2) ▸ hsg2⟩

theorem loopAux_pres (G : SudokuGrid) :
    ∀ (fuel : Nat) (st : SolveState) (S : SudokuGrid),
      loopAux G st fuel = some (.ok S) → Pres G st.solved_grid → Pres G S := by
  intro fuel
  induction fuel with
  | zero => intro st S h hp; cases h
  | succ fuel ih =>
    intro st S h hp
    simp only [loopAux] at h
    cases hstep : step G st with
    | none => rw [hstep] at h; cases h
    | some r =>
      cases r with
      | done g =>
        rw [hstep] at h
        have hgS : g = S := by simpa using h
        exact hgS ▸ (step_pres hstep hp).2 g rfl
      | unsolvable => rw [hstep] at h; simp at h
      | next st2 =>
        rw [hstep] at h
        exact ih st2 S h ((step_pres hstep hp).1 st2 rfl)

theorem set_isSome (sg : SudokuGrid) (x y v : Nat) (hx : x ≤ 8) (hy : y ≤ 8)
    (hlen : sg.data.length = 81) : ∃ sg', sg.set x y v = some sg' := by
  have hidx : y * 9 + x < 81 := by omega
  simp [SudokuGrid.set, hlen, hidx]

theorem step_isSome (G : SudokuGrid) {st : SolveState} (hok : StateOk st) :
    ∃ r, step G st = some r := by
  obtain ⟨sg, x, y, fwd⟩ := st
  obtain ⟨hx, hy, hlen⟩ := hok
  dsimp only at hx hy hlen
  simp only [step]
  split
  · split
    · cases hfind : (List.range' 1 9).find? (fun value => sg.check x y value) with
      | some value =>
        dsimp only
        obtain ⟨sg2, hset⟩ := set_isSome sg x y value hx hy hlen
        rw [hset]
        cases hgo : goForward x y with
        | none => exact ⟨_, rfl⟩
        | some p => cases p with | mk x2 y2 => exact ⟨_, rfl⟩
      | none =>
        dsimp only
        cases hgo : goBack x y with
        | none => exact ⟨_, rfl⟩
        | some p => cases p with | mk x2 y2 => exact ⟨_, rfl⟩
    · cases hfind : (List.range' (sg.get x y) (10 - sg.get x y)).find?
          (fun value => sg.check x y value) with
      | some value =>
        dsimp only
        obtain ⟨sg2, hset⟩ := set_isSome sg x y value hx hy hlen
        rw [hset]
        cases hgo : goForward x y with
        | none => exact ⟨_, rfl⟩
        | some p => cases p with | mk x2 y2 => exact ⟨_, rfl⟩
      | none =>
        dsimp only
        obtain ⟨sg2, hset⟩ := set_isSome sg x y 0 hx hy hlen
        rw [hset]
        cases hgo : goBack x y with
        | none => exact ⟨_, rfl⟩
        | some p => cases p with | mk x2 y2 => exact ⟨_, rfl⟩
  · split
    · cases hgo : goForward x y with
      | none => exact ⟨_, rfl⟩
      | some p => cases p with | mk x2 y2 => exact ⟨_, rfl⟩
    · cases hgo : goBack x y with
      | none => exact ⟨_, rfl⟩
      | some p => cases p with | mk x2 y2 => exact ⟨_, rfl⟩

theorem step_next_stateOk {G : SudokuGrid} {st st' : SolveState}
    (h : step G st = some (.next st')) (hok : StateOk st) : StateOk st' := by
  obtain ⟨hx, hy, hlen⟩ := hok
  have hcur := step_cursor h
  have hbounds : st'.x ≤ 8 ∧ st'.y ≤ 8 := by
    rcases hcur with hgo | hgo
    · exact goForward_bounds hgo hx hy
    · exact goBack_bounds hgo hx hy
  obtain ⟨sg2, ⟨hnext, _⟩, hor⟩ := step_sg h
  have hsg : st'.solved_grid = sg2 := hnext st' rfl
  refine ⟨hbounds.1, hbounds.2, ?_⟩
  rw [hsg]
  rcases hor with heq | ⟨v, _, _, hset⟩
  · rw [heq]; exact hlen
  · rw [SudokuGrid.set] at hset
    split at hset
    · cases hset; simpa using hlen
    · cases hset

theorem loopAux_isSome (G : SudokuGrid) :
    ∀ (fuel : Nat) (st : SolveState), StateOk st → ∃ r, loopAux G st fuel = some r := by
  intro fuel
  induction fuel with
  | zero => intro st _; exact ⟨_, rfl⟩
  | succ fuel ih =>
    intro st hok
    obtain ⟨r, hstep⟩ := step_isSome G hok
    simp only [loopAux]
    rw [hstep]
    cases r with
    | done g => exact ⟨_, rfl⟩
    | unsolvable => exact ⟨_, rfl⟩
    | next st2 => exact ih st2 (step_next_stateOk hstep hok)

/-! The claims. -/

/-- C1: the claim states that `check_grid` (`is_fully_valid`) is false for
every grid with a duplicated nonzero value in some row, column or group,
covering the last row and column, and that `solve` then returns
`InvalidGrid`. The code's loops run over `0..8` exclusive, so a duplicate
confined to column 8 (here the digit 5 at (8, 0) and (8, 1)) passes the
check and `solve` proceeds with the search instead of failing. -/
theorem c1_check_grid_misses_last_column :
    dupLastColGrid.check_grid = true ∧
    dupLastColGrid.get 8 0 = 5 ∧ dupLastColGrid.get 8 1 = 5 ∧
    1 < (dupLastColGrid.column 8).count 5 ∧
    solve dupLastColGrid 1 ≠ some (.err .InvalidGrid) := by decide

/-- C2: the claim states that every grid returned with `Ok` is fully valid
(no duplicated digit anywhere). On `hiddenDupGrid` — fully preset, with the
digit 5 twice in column 8 — `solve` skips every preset cell and returns the
grid itself as a solution, duplicate included. -/
theorem c2_solve_ok_with_duplicate :
    hiddenDupGrid.check_grid = true ∧
    solve hiddenDupGrid 100 = some (.ok hiddenDupGrid) ∧
    1 < (hiddenDupGrid.column 8).count 5 := by decide

/-- C3: whenever `solve` succeeds, every cell that is nonzero in the input
grid holds the same value in the returned grid (presets are never
overwritten); in the embedding `solve` is a pure function of the input, so
the input grid itself is untouched by construction. -/
theorem c3_presets_preserved :
    ∀ (G : SudokuGrid) (n : Nat) (S : SudokuGrid),
      solve G n = some (.ok S) →
      ∀ x y, G.get x y ≠ 0 → S.get x y = G.get x y := by
  intro G n S h x y hxy
  rw [solve] at h
  split at h
  · cases h
  · have hpres : Pres G S := loopAux_pres G n ⟨G, 0, 0, true⟩ S h (fun i _ => rfl)
    rw [get_eq_getD, get_eq_getD]
    exact hpres _ (by rw [get_eq_getD] at hxy; exact hxy)

/-- Witness for C3 at a concrete solver run (a fully preset valid grid is
returned unchanged after 80 preset-skipping steps). -/
theorem c3_presets_preserved_witness :
    solvedExample.get 4 4 = solvedExample.get 4 4 :=
  c3_presets_preserved solvedExample 100 solvedExample (by decide) 4 4 (by decide)

/-- C4 counterexample: a valid grid on which `solve` with
`max_iterations = 1` returns `Unsolvable`, not `IterationCountOverflow`:
the first step already backtracks from cell (0, 0). -/
theorem c4_unsolvable_in_one_step :
    stuckGrid.check_grid = true ∧ solve stuckGrid 1 = some (.err .Unsolvable) := by decide

/-- C4 (amended): on a valid grid, each full loop iteration consumes exactly
one unit of budget, and `solve` returns `IterationCountOverflow` exactly
when `max_iterations` full steps run without the search terminating (by
completion, `Unsolvable`, or a panic). -/
theorem c4_overflow_iff_budget_exhausted :
    ∀ (G : SudokuGrid) (n : Nat), G.check_grid = true →
      (solve G n = some (.err .IterationCountOverflow) ↔
        (runSteps G ⟨G, 0, 0, true⟩ n).isSome = true) := by
  intro G n hG
  rw [solve]
  rw [hG]
  exact loopAux_overflow_iff G n ⟨G, 0, 0, true⟩

/-- Witness for C4: the example grid with budget 1 overflows. -/
theorem c4_overflow_iff_budget_exhausted_witness :
    solve SudokuGrid.example_grid 1 = some (.err .IterationCountOverflow) :=
  (c4_overflow_iff_budget_exhausted SudokuGrid.example_grid 1 (by decide)).mpr (by decide)

/-- C5 counterexample: `get` does not return 0 for every out-of-range
coordinate: `get 9 0` reads flat index 9, the value of cell (0, 1). -/
theorem c5_get_returns_other_cell :
    aliasGrid.get 9 0 = 7 ∧ aliasGrid.get 9 0 ≠ 0 ∧
    aliasGrid.get 9 0 = aliasGrid.get 0 1 := by decide

/-- C5 (amended): on an 81-cell grid, `get` returns 0 exactly when the flat
index `y*9+x` is at least 81 (in particular whenever `y ≥ 9`); when the
flat index is below 81 — which happens for `x ≥ 9` with small `y` — it
returns the value of the in-range cell at that flat index. -/
theorem c5_get_out_of_range_aliases :
    ∀ (g : SudokuGrid), g.data.length = 81 → ∀ x y,
      (81 ≤ y * 9 + x → g.get x y = 0) ∧
      (y * 9 + x < 81 → g.get x y = g.get ((y * 9 + x) % 9) ((y * 9 + x) / 9)) := by
  intro g hlen x y
  constructor
  · intro hge
    rw [get_eq_getD, List.getD_eq_get?, List.get?_eq_none.mpr (by omega)]
    rfl
  · intro hlt
    rw [get_eq_getD, get_eq_getD]
    congr 1
    omega

/-- Witness for C5: `get 9 0` on the alias grid reads cell (0, 1). -/
theorem c5_get_out_of_range_aliases_witness :
    aliasGrid.get 9 0 = aliasGrid.get ((0 * 9 + 9) % 9) ((0 * 9 + 9) / 9) :=
  (c5_get_out_of_range_aliases aliasGrid (by decide) 9 0).2 (by decide)

/-- C6 counterexample: `from_data` performs no length check — called on a
3-element sequence it returns a grid holding exactly that data. -/
theorem c6_from_data_accepts_short :
    (SudokuGrid.from_data [1, 2, 3]).data = [1, 2, 3] ∧
    ([1, 2, 3] : List Nat).length ≠ 81 := by decide

/-- C6 (amended): `from_data` itself accepts any length and returns a grid
wrapping the given data; the 81-length boundary is enforced by the argument
parser, which rejects any other length before `from_data` is reached. -/
theorem c6_from_data_unchecked :
    ∀ digits : List Nat, digits.length ≠ 81 →
      grid_from_digits digits = none ∧ SudokuGrid.from_data digits = ⟨digits⟩ := by
  intro digits h
  refine ⟨?_, rfl⟩
  simp [grid_from_digits, h]

/-- Witness for C6 on a 4-element sequence. -/
theorem c6_from_data_unchecked_witness :
    grid_from_digits [1, 2, 3, 4] = none ∧
    SudokuGrid.from_data [1, 2, 3, 4] = ⟨[1, 2, 3, 4]⟩ :=
  c6_from_data_unchecked [1, 2, 3, 4] (by decide)

/-- C7: when the cursor retreats onto a free cell holding `v`, candidates
are tried in `v..=9` ascending (re-testing `v` itself): the step writes the
least accepted candidate, switches to advancing and steps the cursor
forward (completing past (8, 8)); if no candidate in `v..=9` is accepted,
the cell is reset to 0 and the cursor steps backward. -/
theorem c7_retreat_behavior :
    ∀ (G sg : SudokuGrid) (x y : Nat), G.get x y = 0 → sg.data.length = 81 →
      x ≤ 8 → y ≤ 8 →
      ((∀ w, sg.get x y ≤ w → w ≤ 9 → sg.check x y w = true →
        (∀ u, sg.get x y ≤ u → u < w → sg.check x y u = false) →
        step G ⟨sg, x, y, false⟩ = some (match goForward x y with
          | none => .done ⟨sg.data.set (y * 9 + x) w⟩
          | some (x', y') => .next ⟨⟨sg.data.set (y * 9 + x) w⟩, x', y', true⟩)) ∧
      ((∀ u, sg.get x y ≤ u → u ≤ 9 → sg.check x y u = false) →
        step G ⟨sg, x, y, false⟩ = some (match goBack x y with
          | none => .unsolvable
          | some (x', y') => .next ⟨⟨sg.data.set (y * 9 + x) 0⟩, x', y', false⟩))) := by
  intro G sg x y hfree hlen hx hy
  constructor
  · intro w hw hw9 hcheck hmin
    have hfind : (List.range' (sg.get x y) (10 - sg.get x y)).find?
        (fun value => sg.check x y value) = some w :=
      find?_range'_some hw (by omega) hcheck hmin
    simp only [step, hfree, beq_self_eq_true, if_true]
    rw [hfind]
    dsimp only
    rw [show sg.set x y w = some ⟨sg.data.set (y * 9 + x) w⟩ by
      rw [SudokuGrid.set, if_pos (by omega)]]
    cases hgo : goForward x y with
    | none => rfl
    | some p => cases p with | mk x2 y2 => rfl
  · intro hnone
    have hfind : (List.range' (sg.get x y) (10 - sg.get x y)).find?
        (fun value => sg.check x y value) = none :=
      find?_range'_none fun u hu hub => hnone u hu (by omega)
    simp only [step, hfree, beq_self_eq_true, if_true]
    rw [hfind]
    dsimp only
    rw [show sg.set x y 0 = some ⟨sg.data.set (y * 9 + x) 0⟩ by
      rw [SudokuGrid.set, if_pos (by omega)]]
    cases hgo : goBack x y with
    | none => rfl
    | some p => cases p with | mk x2 y2 => rfl

/-- Witness for C7: retreating onto the free cell (2, 0) of the example
grid (current value 0), the step writes the least acceptable digit 1,
switches to advancing, and moves to (3, 0). -/
theorem c7_retreat_behavior_witness :
    step SudokuGrid.example_grid ⟨SudokuGrid.example_grid, 2, 0, false⟩ =
      some (.next ⟨⟨SudokuGrid.example_grid.data.set 2 1⟩, 3, 0, true⟩) := by
  have h := (c7_retreat_behavior SudokuGrid.example_grid SudokuGrid.example_grid 2 0
    (by decide) (by decide) (by decide) (by decide)).1 1 (by decide) (by decide) (by decide)
    (fun u hu hlt => by
      have hu0 : u = 0 := by omega
      subst hu0
      decide)
  exact h.trans (by rfl)

/-- C8: for every 81-cell grid and every budget, `solve` terminates with
one of the four tagged outcomes — it never panics (every grid access during
solving is in range, `isSome` of the embedding). -/
theorem c8_solve_total :
    ∀ (G : SudokuGrid) (n : Nat), G.data.length = 81 → ∃ r, solve G n = some r := by
  intro G n hlen
  cases hcg : G.check_grid with
  | false =>
    refine ⟨.err .InvalidGrid, ?_⟩
    simp [solve, hcg]
  | true =>
    obtain ⟨r, hr⟩ := loopAux_isSome G n ⟨G, 0, 0, true⟩
      ⟨(by omega : (0:Nat) ≤ 8), (by omega : (0:Nat) ≤ 8), hlen⟩
    refine ⟨r, ?_⟩
    rw [solve, hcg]
    exact hr

/-- Witness for C8 on a fully preset grid. -/
theorem c8_solve_total_witness : ∃ r, solve solvedExample 5 = some r :=
  c8_solve_total solvedExample 5 (by decide)

/-- C10: a nonzero cell value can never be re-accepted by `check`
(`can_place`) at its own position, because the cell's value is an element
of its row; consequently the retreat search over `v..=9` coincides with a
search over `v+1..=9`. -/
theorem c10_cell_value_blocks_itself :
    ∀ (g : SudokuGrid) (x y : Nat), x < 9 → y < 9 → g.get x y ≠ 0 →
      g.check x y (g.get x y) = false ∧
      (List.range' (g.get x y) (10 - g.get x y)).find? (fun v => g.check x y v) =
        (List.range' (g.get x y + 1) (9 - g.get x y)).find? (fun v => g.check x y v) := by
  intro g x y hx _ _
  have hmem : g.get x y ∈ g.row y := by
    rw [SudokuGrid.row]
    exact List.mem_map.mpr ⟨x, List.mem_range.mpr hx, rfl⟩
  have hcontains : (g.row y).contains (g.get x y) = true :=
    List.elem_eq_true_of_mem hmem
  have hfalse : g.check x y (g.get x y) = false := by
    rw [SudokuGrid.check, hcontains]
    rfl
  refine ⟨hfalse, ?_⟩
  by_cases hv9 : g.get x y ≤ 9
  · rw [show 10 - g.get x y = (9 - g.get x y) + 1 by omega, List.range'_succ,
      List.find?_cons, hfalse]
  · rw [show 10 - g.get x y = 0 by omega, show 9 - g.get x y = 0 by omega]
    rfl

/-- The packed solver reaches `chk2000` after 2000 steps on the example grid. -/
theorem chunkA : frunSteps gdE chk0 2000 = some chk2000 := by decide

/-- The packed solver advances from `chk2000` to `chk4000` in 2000 steps. -/
theorem chunkB : frunSteps gdE chk2000 2000 = some chk4000 := by decide

/-- The packed solver advances from `chk4000` to `chk6000` in 2000 steps. -/
theorem chunkC : frunSteps gdE chk4000 2000 = some chk6000 := by decide

/-- The packed solver advances from `chk6000` to `chk8000` in 2000 steps. -/
theorem chunkD : frunSteps gdE chk6000 2000 = some chk8000 := by decide

/-- The packed solver advances from `chk8000` to `chk10000` in 2000 steps. -/
theorem chunkE : frunSteps gdE chk8000 2000 = some chk10000 := by decide

/-- The packed solver advances from `chk10000` to `chk12000` in 2000 steps. -/
theorem chunkF : frunSteps gdE chk10000 2000 = some chk12000 := by decide

/-- From `chk12000` the packed solver completes (772 further steps) with the
packed solution of the example grid. -/
theorem chunkFinal : floopAux gdE chk12000 988000 = some (.fok (encode solvedExample.data)) := by
  decide

/-- C9: solving the example grid with `max_iterations = 1000000` succeeds,
and in the returned grid every row, every column and every 3x3 block is a
permutation of the digits 1..9. -/
theorem c9_example_grid_solved :
    solve SudokuGrid.example_grid 1000000 = some (.ok solvedExample) ∧
    ((List.range 9).all fun y =>
      decide ((solvedExample.row y).Perm [1, 2, 3, 4, 5, 6, 7, 8, 9])) = true ∧
    ((List.range 9).all fun x =>
      decide ((solvedExample.column x).Perm [1, 2, 3, 4, 5, 6, 7, 8, 9])) = true ∧
    ((List.range 3).all fun j => (List.range 3).all fun i =>
      decide ((solvedExample.group (3 * i) (3 * j)).Perm
        [1, 2, 3, 4, 5, 6, 7, 8, 9])) = true := by
  refine ⟨?_, by decide, by decide, by decide⟩
  have hG16 : ∀ v ∈ SudokuGrid.example_grid.data, v < 16 := by decide
  have hNib : Nibbles SudokuGrid.example_grid.data := ⟨by decide, hG16⟩
  have hfast : floopAux gdE chk0 1000000 = some (.fok (encode solvedExample.data)) := by
    rw [(by norm_num : (1000000 : Nat) = 2000 + 998000),
      floopAux_chunk gdE 2000 998000 chk0 chk2000 chunkA,
      (by norm_num : (998000 : Nat) = 2000 + 996000),
      floopAux_chunk gdE 2000 996000 chk2000 chk4000 chunkB,
      (by norm_num : (996000 : Nat) = 2000 + 994000),
      floopAux_chunk gdE 2000 994000 chk4000 chk6000 chunkC,
      (by norm_num : (994000 : Nat) = 2000 + 992000),
      floopAux_chunk gdE 2000 992000 chk6000 chk8000 chunkD,
      (by norm_num : (992000 : Nat) = 2000 + 990000),
      floopAux_chunk gdE 2000 990000 chk8000 chk10000 chunkE,
      (by norm_num : (990000 : Nat) = 2000 + 988000),
      floopAux_chunk gdE 2000 988000 chk10000 chk12000 chunkF]
    exact chunkFinal
  have hslow := floopAux_loopAux SudokuGrid.example_grid hG16 1000000
    ⟨SudokuGrid.example_grid, 0, 0, true⟩ hNib
  have hmap : Option.map mapResult
      (loopAux SudokuGrid.example_grid ⟨SudokuGrid.example_grid, 0, 0, true⟩ 1000000) =
      some (.fok (encode solvedExample.data)) := by
    rw [← hslow]
    exact hfast
  have hnibS : Nibbles solvedExample.data := ⟨by decide, by decide⟩
  cases hloop : loopAux SudokuGrid.example_grid
      ⟨SudokuGrid.example_grid, 0, 0, true⟩ 1000000 with
  | none => rw [hloop] at hmap; cases hmap
  | some r =>
    cases r with
    | err e => rw [hloop] at hmap; simp [mapResult] at hmap
    | ok g =>
      rw [hloop] at hmap
      simp only [Option.map_some', mapResult, Option.some.injEq,
        FastResult.fok.injEq] at hmap
      have hnibg : Nibbles g.data :=
        loopAux_ok_nibbles SudokuGrid.example_grid 1000000
          ⟨SudokuGrid.example_grid, 0, 0, true⟩ g hloop hNib
      have hdata : g.data = solvedExample.data :=
        encode_inj hnibg.2 hnibS.2 (by rw [hnibg.1, hnibS.1]) hmap
      have hg : g = solvedExample := congrArg SudokuGrid.mk hdata
      rw [solve, (by decide : SudokuGrid.example_grid.check_grid = true), hloop, hg]
      rfl

/-- Witness for C10 at cell (0, 0) of the example grid (value 5). -/
theorem c10_cell_value_blocks_itself_witness :
    SudokuGrid.example_grid.check 0 0 (SudokuGrid.example_grid.get 0 0) = false ∧
    (List.range' (SudokuGrid.example_grid.get 0 0)
        (10 - SudokuGrid.example_grid.get 0 0)).find?
        (fun v => SudokuGrid.example_grid.check 0 0 v) =
      (List.range' (SudokuGrid.example_grid.get 0 0 + 1)
        (9 - SudokuGrid.example_grid.get 0 0)).find?
        (fun v => SudokuGrid.example_grid.check 0 0 v) :=
  c10_cell_value_blocks_itself SudokuGrid.example_grid 0 0 (by decide) (by decide) (by decide)

end Sudoku
